import Mathlib

/-!
Shallow embedding of the stylers-backend factory-monitoring server
(server.js, models/machineData.js, models/LiveStatus.js and the
live-status router), covering the ingestion deduplication engine,
time normalization, the live-state engine and the retention sweep.

Instants are modelled as JavaScript epoch milliseconds (Int).
A JavaScript Date object is modelled by JSDate: its time value is
`some ms` for a valid date and `none` for an Invalid Date (NaN).
-/

namespace Stylers

/-- Machine status enumeration, from the Mongoose schema enum
["RUNNING", "OFF", "DOWNTIME", "UNKNOWN"]. -/
inductive Status
  | RUNNING
  | OFF
  | DOWNTIME
  | UNKNOWN
deriving DecidableEq, Repr

/-- The string name of a status, as stored in Mongo documents. -/
def statusName : Status → String
  | .RUNNING => "RUNNING"
  | .OFF => "OFF"
  | .DOWNTIME => "DOWNTIME"
  | .UNKNOWN => "UNKNOWN"

/-- JavaScript `a || b` on an optional string: `undefined`/`null` and the
empty string are falsy, any other string is returned as is. -/
def jsStr : Option String → String → String
  | some s, d => if s = "" then d else s
  | none, d => d

/-- A JavaScript Date object: `ms = some t` is a valid date with time value
t (epoch milliseconds), `ms = none` is an Invalid Date (time value NaN). -/
structure JSDate where
  ms : Option Int
deriving DecidableEq, Repr

/-- A raw incoming timestamp value, abstracted by the only observations
parseToUTC makes of it:
  - nullv: any falsy value (null, undefined, empty string) — first guard;
  - dateObj: `value instanceof Date`;
  - strv hasTZ parsed: a string, with the result of the
    /Z$|[+-]dd:dd$/ zone-suffix test and of `new Date(value)`
    (`none` when parsing yields an Invalid Date);
  - numv parsed: any other value, with the result of `new Date(value)`. -/
inductive RawValue
  | nullv
  | dateObj (d : JSDate)
  | strv (hasTZ : Bool) (parsed : Option Int)
  | numv (parsed : Option Int)
deriving DecidableEq, Repr

/-- The fixed Pakistan offset used throughout: 5 * 60 * 60 * 1000 ms. -/
def pktOffsetMs : Int := 5 * 60 * 60 * 1000

/-- parseToUTC from server.js. Note the no-zone string branch subtracts the
offset from the parsed time value without checking for NaN, so an
unparsable zone-less string yields `some (Invalid Date)` rather than
`none`; the other branches return `none` on an unparsable value. -/
def parseToUTC : RawValue → Option JSDate
  | .nullv => none
  | .dateObj d => some d
  | .strv hasTZ parsed =>
      if hasTZ = false then
        some ⟨parsed.map (fun t => t - pktOffsetMs)⟩
      else
        match parsed with
        | none => none
        | some t => some ⟨some t⟩
  | .numv parsed =>
      match parsed with
      | none => none
      | some t => some ⟨some t⟩

/-- `Date.prototype.getUTCHours` on a valid time value t: the UTC
hour-of-day, floor division then Euclidean remainder. -/
def getUTCHours (t : Int) : Int :=
  (Int.fdiv t 3600000) % 24

/-- getShiftFromHour from the live-status router (also the inline shift
classifier in saveBatch): hour in [7,15) is Morning, [15,23) is Evening,
anything else Night. -/
def getShiftFromHour (hour : Int) : String :=
  if 7 ≤ hour ∧ hour < 15 then "Morning"
  else if 15 ≤ hour ∧ hour < 23 then "Evening"
  else "Night"

/-- The shift saveBatch derives when the item carries none:
`getUTCHours() + 5` with no reduction mod 24, fed to the classifier. -/
def deriveShift (t : Int) : String :=
  getShiftFromHour (getUTCHours t + 5)

/-- Modelled from the spec: local hour = (UTC hour + offset) mod 24, then
the same [7,15)/[15,23)/otherwise classification. Comparator for the
refinement claim about shift derivation. -/
def specShiftRule (t : Int) : String :=
  getShiftFromHour ((getUTCHours t + 5) % 24)

/-- One LiveStatus document (models/LiveStatus.js). -/
structure LiveState where
  machineName : String
  status : Status
  machinePower : Bool
  downtime : Bool
  shift : String
  lastUpdated : Int
  lastChange : Int
  uptimeSeconds : Int
  lastPolled : Int
  isOnline : Bool
deriving DecidableEq, Repr

/-- One element of the body of POST /api/live-status/update. Missing
fields are `none` (JavaScript `undefined`). The timestamp is modelled
already parsed: `new Date(timestamp)` for a present well-formed value. -/
structure LiveUpdate where
  machine : String
  status : Option Status
  machinePower : Option Bool
  downtime : Option Bool
  shift : Option String
  timestamp : Option Int
deriving DecidableEq, Repr

/-- The per-machine body of POST /api/live-status/update:
`existing = none` models no LiveStatus document for the machine
(LiveStatus.create branch), `existing = some ex` the findOneAndUpdate
branch. `now` is the receipt instant captured at the top of the route.
The uptime rule: accrue `max 0 (floor ((T - lastUpdated) / 1000))` only
when the previous status is RUNNING and the status did not change;
reset to 0 when the new status is RUNNING (fresh run) or on any status
change; otherwise keep it. `lastChange` moves only on a status change. -/
def applyUpdate (existing : Option LiveState) (u : LiveUpdate) (now : Int) :
    LiveState :=
  let updateTime := u.timestamp.getD now
  match existing with
  | none =>
      { machineName := u.machine
        status := u.status.getD .UNKNOWN
        machinePower := u.machinePower.getD false
        downtime := u.downtime.getD false
        shift := jsStr u.shift ("Unknown")
        lastUpdated := updateTime
        lastChange := updateTime
        lastPolled := now
        uptimeSeconds := 0
        isOnline := true }
  | some ex =>
      let newUptime : Int :=
        if ex.status = .RUNNING ∧ u.status = some ex.status then
          ex.uptimeSeconds + max 0 (Int.fdiv (updateTime - ex.lastUpdated) 1000)
        else if u.status = some .RUNNING then 0
        else if u.status ≠ some ex.status then 0
        else ex.uptimeSeconds
      { machineName := ex.machineName
        status := u.status.getD .UNKNOWN
        machinePower := u.machinePower.getD false
        downtime := u.downtime.getD false
        shift := jsStr u.shift (jsStr (some ex.shift) ("Unknown"))
        lastUpdated := updateTime
        lastChange := if u.status ≠ some ex.status then updateTime else ex.lastChange
        lastPolled := now
        uptimeSeconds := newUptime
        isOnline := true }

/-- initLiveState: the per-machine body of POST /api/live-status/initialize:
one LiveStatus document created from the machine's latest HistoricalRecord,
with uptimeSeconds 0 and isOnline false. `latestStatus` etc. are the fields
of that latest MachineData document, `latestShift` its shift string. -/
def initLiveState (machineName : String) (latestStatus : Status)
    (latestPower latestDowntime : Bool) (latestShift : String)
    (latestTimestamp : Int) (now : Int) : LiveState :=
  { machineName := machineName
    status := latestStatus
    machinePower := latestPower
    downtime := latestDowntime
    shift := jsStr (some latestShift) ("Unknown")
    lastUpdated := latestTimestamp
    lastChange := latestTimestamp
    lastPolled := now
    uptimeSeconds := 0
    isOnline := false }

/-- One MachineData document (models/machineData.js): the persisted
HistoricalRecord. The timestamp is the canonical UTC instant in epoch
milliseconds. The collection carries a unique index on
(machineName, timestamp). -/
structure MachineRecord where
  timestamp : Int
  machineName : String
  status : Status
  machinePower : Bool
  downtime : Bool
  shift : String
  durationSeconds : Int
deriving DecidableEq, Repr

/-- One element of the ingestion batch body (POST /api/machine-data).
`machine = ""` models a missing/empty machine name (falsy). -/
structure ReportItem where
  timestamp : RawValue
  machine : String
  status : Option Status
  durationSeconds : Int
  shift : Option String
deriving DecidableEq, Repr

/-- The timeKey component of filterDuplicates' in-memory key:
`Math.floor(tsUTC.getTime() / 1000)`, which is the string NaN for an
Invalid Date. -/
def timeKeyStr (d : JSDate) : String :=
  match d.ms with
  | some t => toString (Int.fdiv t 1000)
  | none => "NaN"

/-- The in-memory key of filterDuplicates:
machine + timeKey + (status or UNKNOWN), underscore-joined. -/
def dupKey (item : ReportItem) (d : JSDate) : String :=
  item.machine ++ "_" ++ timeKeyStr d ++ "_" ++ statusName (item.status.getD .UNKNOWN)

/-- The loop of filterDuplicates: items whose timestamp parses to null or
whose machine is falsy are dropped; the first item to produce each key is
kept, later ones with the same key are dropped. Note an Invalid Date is
truthy, so it passes the `!tsUTC` guard and produces a NaN time key. -/
def filterDupGo : List ReportItem → List String → List ReportItem
  | [], _ => []
  | item :: rest, seen =>
      match parseToUTC item.timestamp with
      | none => filterDupGo rest seen
      | some d =>
          if item.machine = "" then filterDupGo rest seen
          else
            let key := dupKey item d
            if seen.contains key then filterDupGo rest seen
            else item :: filterDupGo rest (key :: seen)

/-- filterDuplicates from server.js. -/
def filterDuplicates (items : List ReportItem) : List ReportItem :=
  filterDupGo items []

/-- The exact-match check of saveBatch: a HistoricalRecord with identical
machineName, timestamp and status already exists. -/
def existsExact (store : List MachineRecord) (machine : String) (ts : Int)
    (st : Status) : Prop :=
  ∃ r ∈ store, r.machineName = machine ∧ r.timestamp = ts ∧ r.status = st

instance (store : List MachineRecord) (machine : String) (ts : Int)
    (st : Status) : Decidable (existsExact store machine ts st) :=
  List.decidableBEx _ store

/-- The jitter-window check of saveBatch: a HistoricalRecord for the same
machine and status exists within one second (1000 ms) either side. -/
def existsJitter (store : List MachineRecord) (machine : String) (ts : Int)
    (st : Status) : Prop :=
  ∃ r ∈ store, r.machineName = machine ∧
    ts - 1000 ≤ r.timestamp ∧ r.timestamp ≤ ts + 1000 ∧ r.status = st

instance (store : List MachineRecord) (machine : String) (ts : Int)
    (st : Status) : Decidable (existsJitter store machine ts st) :=
  List.decidableBEx _ store

/-- MachineData.create under the unique index on (machineName, timestamp):
a record sharing both fields raises the Mongo duplicate-key error E11000,
modelled as `Except.error ()`; otherwise the document is appended. -/
def tryCreate (store : List MachineRecord) (doc : MachineRecord) :
    Except Unit (List MachineRecord) :=
  if ∃ r ∈ store, r.machineName = doc.machineName ∧ r.timestamp = doc.timestamp then
    .error ()
  else
    .ok (store ++ [doc])

/-- The document saveBatch builds for a valid item whose canonical instant
is ts: power iff RUNNING or DOWNTIME, downtime iff DOWNTIME, shift from
the item or derived from the UTC hour, duration carried over. -/
def mkDoc (item : ReportItem) (ts : Int) : MachineRecord :=
  { timestamp := ts
    machineName := item.machine
    status := item.status.getD .UNKNOWN
    machinePower := item.status = some .RUNNING ∨ item.status = some .DOWNTIME
    downtime := item.status = some .DOWNTIME
    shift := jsStr item.shift (deriveShift ts)
    durationSeconds := item.durationSeconds }

/-- The per-item body of saveBatch's loop, threading the store and the
list of saved documents. In order: the `!tsUTC || !machine` guard (an
Invalid Date is truthy and passes it; the store query on an invalid
timestamp then raises a cast error, caught by the per-item catch, so the
item contributes nothing and the loop continues); the exact-match check;
the jitter-window check; the create, whose duplicate-key error 11000 is
caught and treated as a benign skip. -/
def processItem (acc : List MachineRecord × List MachineRecord)
    (item : ReportItem) : List MachineRecord × List MachineRecord :=
  match parseToUTC item.timestamp with
  | none => acc
  | some d =>
      if item.machine = "" then acc
      else
        match d.ms with
        | none => acc
        | some ts =>
            let st := item.status.getD .UNKNOWN
            if existsExact acc.1 item.machine ts st then acc
            else if existsJitter acc.1 item.machine ts st then acc
            else
              match tryCreate acc.1 (mkDoc item ts) with
              | .error _ => acc
              | .ok store2 => (store2, acc.2 ++ [mkDoc item ts])

/-- saveBatch from server.js. filterDuplicates is computed, but apart from
the early empty-batch return its result is unused: the chunk loop slices
the ORIGINAL items list (`items.slice`), not uniqueItems, so the in-batch
collapse only ever short-circuits a batch whose every item is invalid or
key-duplicated. Chunking visits the items in their original order
(CHUNK_SIZE slicing plus a scheduling yield), so the loop is modelled as a
single left fold. Returns (final store, saved documents). -/
def saveBatch (store : List MachineRecord) (items : List ReportItem) :
    List MachineRecord × List MachineRecord :=
  let uniqueItems := filterDuplicates items
  if uniqueItems.isEmpty then (store, [])
  else items.foldl processItem (store, [])

/-- The result of one retention sweep: the artifact written (none when no
artifact was written) and the remaining primary store. -/
structure SweepResult where
  archived : Option (List MachineRecord)
  store : List MachineRecord
deriving DecidableEq, Repr

/-- The daily retention cron job: select records with timestamp ≤ cutoff;
an empty selection returns early; write the selection verbatim to a fresh
archive file; only then delete the selected records by id. `writeOk =
false` models writeFileSync throwing, which the surrounding catch turns
into an aborted sweep with no deletion. Deletion by the selected ids
removes exactly the records with timestamp ≤ cutoff. -/
def retentionSweep (store : List MachineRecord) (cutoff : Int)
    (writeOk : Bool) : SweepResult :=
  if (store.filter (fun r => r.timestamp ≤ cutoff)).isEmpty then
    { archived := none, store := store }
  else if writeOk then
    { archived := some (store.filter (fun r => r.timestamp ≤ cutoff))
      store := store.filter (fun r => ¬ r.timestamp ≤ cutoff) }
  else { archived := none, store := store }

/-- The LiveState invariant relating uptime to status: uptimeSeconds is
nonnegative (the schema declares min 0 and every operation preserves it)
and a strictly positive uptimeSeconds only ever occurs while the current
status is RUNNING. -/
def uptimeInv (s : LiveState) : Prop :=
  0 ≤ s.uptimeSeconds ∧ (0 < s.uptimeSeconds → s.status = .RUNNING)

/-- A live-status update carrying only machine, status and timestamp, as the
collector sends during the uptime-accrual scenario. -/
def basicUpdate (t : Int) (st : Status) : LiveUpdate :=
  { machine := "M1", status := some st, machinePower := none,
    downtime := none, shift := none, timestamp := some t }

/-- Claim C1: starting with no LiveState, an accepted RUNNING update at t0
creates the state with uptimeSeconds 0 and lastChange = lastUpdated = t0;
RUNNING updates at t0+30s and t0+90s accrue the elapsed deltas so
uptimeSeconds is 30 then 90; a DOWNTIME update at t0+120s resets
uptimeSeconds to 0 and sets lastChange to t0+120s. Times are in
milliseconds; n1..n4 are the receipt instants of the four requests. -/
theorem uptime_accrual_run_scenario (t0 n1 n2 n3 n4 : Int) :
    (applyUpdate none (basicUpdate t0 .RUNNING) n1).uptimeSeconds = 0 ∧
    (applyUpdate none (basicUpdate t0 .RUNNING) n1).lastChange = t0 ∧
    (applyUpdate none (basicUpdate t0 .RUNNING) n1).lastUpdated = t0 ∧
    (applyUpdate none (basicUpdate t0 .RUNNING) n1).isOnline = true ∧
    (applyUpdate (some (applyUpdate none (basicUpdate t0 .RUNNING) n1))
        (basicUpdate (t0 + 30000) .RUNNING) n2).uptimeSeconds = 30 ∧
    (applyUpdate (some (applyUpdate (some (applyUpdate none (basicUpdate t0 .RUNNING) n1))
        (basicUpdate (t0 + 30000) .RUNNING) n2))
        (basicUpdate (t0 + 90000) .RUNNING) n3).uptimeSeconds = 90 ∧
    (applyUpdate (some (applyUpdate (some (applyUpdate (some
        (applyUpdate none (basicUpdate t0 .RUNNING) n1))
        (basicUpdate (t0 + 30000) .RUNNING) n2))
        (basicUpdate (t0 + 90000) .RUNNING) n3))
        (basicUpdate (t0 + 120000) .DOWNTIME) n4).uptimeSeconds = 0 ∧
    (applyUpdate (some (applyUpdate (some (applyUpdate (some
        (applyUpdate none (basicUpdate t0 .RUNNING) n1))
        (basicUpdate (t0 + 30000) .RUNNING) n2))
        (basicUpdate (t0 + 90000) .RUNNING) n3))
        (basicUpdate (t0 + 120000) .DOWNTIME) n4).lastChange = t0 + 120000 := by
  have h30 : t0 + 30000 - t0 = 30000 := by ring
  have h60 : t0 + 90000 - (t0 + 30000) = 60000 := by ring
  have d30 : Int.fdiv 30000 1000 = 30 := by decide
  have d60 : Int.fdiv 60000 1000 = 60 := by decide
  simp [applyUpdate, basicUpdate, h30, h60, d30, d60]

/-- Claim C2: the retention sweep selects the records with instant at or
before the cutoff; an empty selection is a no-op; when the archive write
fails nothing is deleted; on a successful write the artifact holds the
selection verbatim and exactly the selected records leave the store; and
any change to the store implies the artifact was written first. -/
theorem retention_write_before_delete (store : List MachineRecord)
    (cutoff : Int) (writeOk : Bool) :
    ((store.filter (fun r => r.timestamp ≤ cutoff)).isEmpty = true →
      retentionSweep store cutoff writeOk = { archived := none, store := store }) ∧
    (writeOk = false → (retentionSweep store cutoff writeOk).store = store) ∧
    ((store.filter (fun r => r.timestamp ≤ cutoff)).isEmpty = false → writeOk = true →
      (retentionSweep store cutoff writeOk).archived =
        some (store.filter (fun r => r.timestamp ≤ cutoff)) ∧
      (retentionSweep store cutoff writeOk).store =
        store.filter (fun r => ¬ r.timestamp ≤ cutoff)) ∧
    ((retentionSweep store cutoff writeOk).store ≠ store →
      (retentionSweep store cutoff writeOk).archived =
        some (store.filter (fun r => r.timestamp ≤ cutoff)) ∧
      (retentionSweep store cutoff writeOk).store =
        store.filter (fun r => ¬ r.timestamp ≤ cutoff)) := by
  unfold retentionSweep
  split_ifs with h1 h2
  · exact ⟨fun _ => rfl, fun _ => rfl, fun he => absurd h1 (by simp [he]),
      fun hs => absurd rfl hs⟩
  · exact ⟨fun he => absurd h1 (by simp [he]), fun hw => by simp [hw] at h2,
      fun _ _ => ⟨rfl, rfl⟩, fun _ => ⟨rfl, rfl⟩⟩
  · exact ⟨fun _ => rfl, fun _ => rfl, fun _ hw => absurd hw h2,
      fun hs => absurd rfl hs⟩

/-- A sample stored HistoricalRecord used to instantiate witnesses. -/
def sampleRecord : MachineRecord :=
  { timestamp := 1000, machineName := "M1", status := .OFF,
    machinePower := false, downtime := false, shift := "Night",
    durationSeconds := 0 }

/-- Witness for retention_write_before_delete: with one record at t = 1000,
a failing write at cutoff 2000 deletes nothing, and a sweep at cutoff 500
(empty selection) is a no-op. -/
theorem retention_write_before_delete_witness :
    (retentionSweep [sampleRecord] 2000 false).store = [sampleRecord] ∧
    retentionSweep [sampleRecord] 500 true =
      { archived := none, store := [sampleRecord] } :=
  ⟨(retention_write_before_delete [sampleRecord] 2000 false).2.1 rfl,
   (retention_write_before_delete [sampleRecord] 500 true).1 (by decide)⟩

/-- Claim C3: submitting the same report (machine, instant, status) twice,
in one batch or across two batches, leaves exactly one HistoricalRecord:
within a batch the second copy hits the exact-match check against the
freshly created record, across batches it hits it against the stored one. -/
theorem ingestion_idempotent_record (m : String) (t : Int) (s : Status)
    (dur : Int) (hm : m ≠ "") :
    saveBatch []
      [{ timestamp := .numv (some t), machine := m, status := some s,
         durationSeconds := dur, shift := none },
       { timestamp := .numv (some t), machine := m, status := some s,
         durationSeconds := dur, shift := none }] =
      ([mkDoc { timestamp := .numv (some t), machine := m, status := some s,
                durationSeconds := dur, shift := none } t],
       [mkDoc { timestamp := .numv (some t), machine := m, status := some s,
                durationSeconds := dur, shift := none } t]) ∧
    saveBatch
      (saveBatch []
        [{ timestamp := .numv (some t), machine := m, status := some s,
           durationSeconds := dur, shift := none }]).1
      [{ timestamp := .numv (some t), machine := m, status := some s,
         durationSeconds := dur, shift := none }] =
      ([mkDoc { timestamp := .numv (some t), machine := m, status := some s,
                durationSeconds := dur, shift := none } t], []) := by
  constructor
  · simp [saveBatch, filterDuplicates, filterDupGo, parseToUTC, processItem,
      existsExact, existsJitter, tryCreate, mkDoc, hm]
  · simp [saveBatch, filterDuplicates, filterDupGo, parseToUTC, processItem,
      existsExact, existsJitter, tryCreate, mkDoc, hm]

/-- Witness for ingestion_idempotent_record at machine M3, t = 7000,
status RUNNING. -/
theorem ingestion_idempotent_record_witness :
    saveBatch []
      [{ timestamp := .numv (some 7000), machine := "M3", status := some .RUNNING,
         durationSeconds := 0, shift := none },
       { timestamp := .numv (some 7000), machine := "M3", status := some .RUNNING,
         durationSeconds := 0, shift := none }] =
      ([mkDoc { timestamp := .numv (some 7000), machine := "M3", status := some .RUNNING,
                durationSeconds := 0, shift := none } 7000],
       [mkDoc { timestamp := .numv (some 7000), machine := "M3", status := some .RUNNING,
                durationSeconds := 0, shift := none } 7000]) ∧
    saveBatch
      (saveBatch []
        [{ timestamp := .numv (some 7000), machine := "M3", status := some .RUNNING,
           durationSeconds := 0, shift := none }]).1
      [{ timestamp := .numv (some 7000), machine := "M3", status := some .RUNNING,
         durationSeconds := 0, shift := none }] =
      ([mkDoc { timestamp := .numv (some 7000), machine := "M3", status := some .RUNNING,
                durationSeconds := 0, shift := none } 7000], []) :=
  ingestion_idempotent_record "M3" 7000 .RUNNING 0 (by decide)

/-- Claim C4: a batch holding two reports for one machine with equal status
and instants 400 ms apart saves exactly one record: the first is created,
the second is dropped by the jitter-window check (within one second of the
first); the store and the saved list end with just the first document. -/
theorem in_batch_near_duplicate_single_save (m : String) (t : Int) (s : Status)
    (hm : m ≠ "") :
    saveBatch []
      [{ timestamp := .numv (some t), machine := m, status := some s,
         durationSeconds := 0, shift := none },
       { timestamp := .numv (some (t + 400)), machine := m, status := some s,
         durationSeconds := 0, shift := none }] =
      ([mkDoc { timestamp := .numv (some t), machine := m, status := some s,
                durationSeconds := 0, shift := none } t],
       [mkDoc { timestamp := .numv (some t), machine := m, status := some s,
                durationSeconds := 0, shift := none } t]) := by
  have hne : (t : Int) + 400 ≠ t := by omega
  have hj1 : t + 400 - 1000 ≤ t := by omega
  have hj2 : t ≤ t + 400 + 1000 := by omega
  simp [saveBatch, filterDuplicates, filterDupGo, parseToUTC, processItem,
    existsExact, existsJitter, tryCreate, mkDoc, hm, hne, hj1, hj2]

/-- Witness for in_batch_near_duplicate_single_save at machine M1, t = 2000,
status DOWNTIME. -/
theorem in_batch_near_duplicate_single_save_witness :
    saveBatch []
      [{ timestamp := .numv (some 2000), machine := "M1", status := some .DOWNTIME,
         durationSeconds := 0, shift := none },
       { timestamp := .numv (some 2400), machine := "M1", status := some .DOWNTIME,
         durationSeconds := 0, shift := none }] =
      ([mkDoc { timestamp := .numv (some 2000), machine := "M1", status := some .DOWNTIME,
                durationSeconds := 0, shift := none } 2000],
       [mkDoc { timestamp := .numv (some 2000), machine := "M1", status := some .DOWNTIME,
                durationSeconds := 0, shift := none } 2000]) :=
  in_batch_near_duplicate_single_save "M1" 2000 .DOWNTIME (by decide)

/-- Claim C5: the derived shift of every stored record with no supplied
shift equals the spec rule local hour = (UTC hour + 5) mod 24 mapped
through [7,15) Morning, [15,23) Evening, otherwise Night — even for UTC
hours where UTC hour + 5 reaches 24 or more, because those land in the
Night fall-through both with and without the mod. The three sample local
wall-clock instants 09:00, 16:00 and 23:30 map to Morning, Evening and
Night. -/
theorem shift_derivation_spec_rule (t : Int) :
    deriveShift t = specShiftRule t ∧
    deriveShift 14400000 = "Morning" ∧
    deriveShift 39600000 = "Evening" ∧
    deriveShift 66600000 = "Night" := by
  refine ⟨?_, by decide, by decide, by decide⟩
  have hb : 0 ≤ getUTCHours t ∧ getUTCHours t < 24 := by
    unfold getUTCHours
    generalize Int.fdiv t 3600000 = q
    omega
  unfold deriveShift specShiftRule getShiftFromHour
  split_ifs <;> first | rfl | omega

/-- Claim C6: updating an existing LiveState with status S at instant T
sets lastChange to T exactly when S differs from the previous status
(otherwise lastChange keeps its old value), and always sets lastUpdated to
T and lastPolled to the receipt instant. -/
theorem live_update_frame_effect (ex : LiveState) (S : Status) (m : String)
    (mp dn : Option Bool) (sh : Option String) (T now : Int) :
    (applyUpdate (some ex)
      { machine := m, status := some S, machinePower := mp, downtime := dn,
        shift := sh, timestamp := some T } now).lastChange =
      (if S = ex.status then ex.lastChange else T) ∧
    (applyUpdate (some ex)
      { machine := m, status := some S, machinePower := mp, downtime := dn,
        shift := sh, timestamp := some T } now).lastUpdated = T ∧
    (applyUpdate (some ex)
      { machine := m, status := some S, machinePower := mp, downtime := dn,
        shift := sh, timestamp := some T } now).lastPolled = now := by
  rcases eq_or_ne S ex.status with h | h <;> simp [applyUpdate, h]

/-- Claim C7: a record with the same machine and instant but a different
status defeats the exact-match and jitter checks (both require an equal
status) yet violates the unique (machineName, timestamp) index, so the
create raises the duplicate-key error; the item is skipped benignly, the
store is untouched by it, the rest of the batch is processed, and
saveBatch returns normally. -/
theorem duplicate_key_benign_skip (m m2 : String) (t t2 : Int)
    (sOld sNew s2 : Status) (pw dw : Bool) (sh : String) (dur : Int)
    (hm : m ≠ "") (hm2 : m2 ≠ "") (hmm : m ≠ m2) (hs : sOld ≠ sNew) :
    ¬ existsExact
      [{ timestamp := t, machineName := m, status := sOld, machinePower := pw,
         downtime := dw, shift := sh, durationSeconds := dur }] m t sNew ∧
    ¬ existsJitter
      [{ timestamp := t, machineName := m, status := sOld, machinePower := pw,
         downtime := dw, shift := sh, durationSeconds := dur }] m t sNew ∧
    tryCreate [{ timestamp := t, machineName := m, status := sOld, machinePower := pw,
                 downtime := dw, shift := sh, durationSeconds := dur }]
      (mkDoc { timestamp := .numv (some t), machine := m, status := some sNew,
               durationSeconds := 0, shift := none } t) = .error () ∧
    processItem
      ([{ timestamp := t, machineName := m, status := sOld, machinePower := pw,
          downtime := dw, shift := sh, durationSeconds := dur }], [])
      { timestamp := .numv (some t), machine := m, status := some sNew,
        durationSeconds := 0, shift := none } =
      ([{ timestamp := t, machineName := m, status := sOld, machinePower := pw,
          downtime := dw, shift := sh, durationSeconds := dur }], []) ∧
    saveBatch
      [{ timestamp := t, machineName := m, status := sOld, machinePower := pw,
         downtime := dw, shift := sh, durationSeconds := dur }]
      [{ timestamp := .numv (some t), machine := m, status := some sNew,
         durationSeconds := 0, shift := none },
       { timestamp := .numv (some t2), machine := m2, status := some s2,
         durationSeconds := 0, shift := none }] =
      ([{ timestamp := t, machineName := m, status := sOld, machinePower := pw,
          downtime := dw, shift := sh, durationSeconds := dur },
        mkDoc { timestamp := .numv (some t2), machine := m2, status := some s2,
                durationSeconds := 0, shift := none } t2],
       [mkDoc { timestamp := .numv (some t2), machine := m2, status := some s2,
                durationSeconds := 0, shift := none } t2]) := by
  refine ⟨?_, ?_, ?_, ?_, ?_⟩
  · simp [existsExact, hs]
  · simp [existsJitter, hs]
  · simp [tryCreate, mkDoc]
  · simp [processItem, parseToUTC, existsExact, existsJitter, tryCreate, mkDoc, hm, hs]
  · simp [saveBatch, filterDuplicates, filterDupGo, parseToUTC, processItem,
      existsExact, existsJitter, tryCreate, mkDoc, hm, hm2, hmm, hs]

/-- Witness for duplicate_key_benign_skip: stored (M1, 1000, OFF), batch of
(M1, 1000, RUNNING) — duplicate-key skip — followed by (M2, 5000, OFF),
which is still saved. -/
theorem duplicate_key_benign_skip_witness :
    tryCreate [{ timestamp := 1000, machineName := "M1", status := .OFF,
                 machinePower := false, downtime := false, shift := "Night",
                 durationSeconds := 0 }]
      (mkDoc { timestamp := .numv (some 1000), machine := "M1", status := some .RUNNING,
               durationSeconds := 0, shift := none } 1000) = .error () ∧
    saveBatch
      [{ timestamp := 1000, machineName := "M1", status := .OFF, machinePower := false,
         downtime := false, shift := "Night", durationSeconds := 0 }]
      [{ timestamp := .numv (some 1000), machine := "M1", status := some .RUNNING,
         durationSeconds := 0, shift := none },
       { timestamp := .numv (some 5000), machine := "M2", status := some .OFF,
         durationSeconds := 0, shift := none }] =
      ([{ timestamp := 1000, machineName := "M1", status := .OFF, machinePower := false,
          downtime := false, shift := "Night", durationSeconds := 0 },
        mkDoc { timestamp := .numv (some 5000), machine := "M2", status := some .OFF,
                durationSeconds := 0, shift := none } 5000],
       [mkDoc { timestamp := .numv (some 5000), machine := "M2", status := some .OFF,
                durationSeconds := 0, shift := none } 5000]) :=
  ⟨(duplicate_key_benign_skip "M1" "M2" 1000 5000 .OFF .RUNNING .OFF false false
      "Night" 0 (by decide) (by decide) (by decide) (by decide)).2.2.1,
   (duplicate_key_benign_skip "M1" "M2" 1000 5000 .OFF .RUNNING .OFF false false
      "Night" 0 (by decide) (by decide) (by decide) (by decide)).2.2.2.2⟩

/-- Claim C8 evaluation: an unparsable string WITHOUT zone information does
not make parseToUTC return null — the no-zone branch subtracts the offset
from NaN and returns an Invalid Date object, which is truthy — while an
unparsable zone-suffixed string and an unparsable non-string value do
return null. A batch carrying such an item still continues: the item
contributes nothing (the store query on the invalid timestamp fails and is
caught per-item) and the following item is saved. -/
theorem unparsable_zoneless_string_invalid_date :
    parseToUTC (.strv false none) = some { ms := none } ∧
    parseToUTC (.strv false none) ≠ none ∧
    parseToUTC (.strv true none) = none ∧
    parseToUTC (.numv none) = none ∧
    saveBatch []
      [{ timestamp := .strv false none, machine := "M1", status := some .RUNNING,
         durationSeconds := 0, shift := none },
       { timestamp := .numv (some 1000), machine := "M2", status := some .OFF,
         durationSeconds := 0, shift := none }] =
      ([mkDoc { timestamp := .numv (some 1000), machine := "M2", status := some .OFF,
                durationSeconds := 0, shift := none } 1000],
       [mkDoc { timestamp := .numv (some 1000), machine := "M2", status := some .OFF,
                durationSeconds := 0, shift := none } 1000]) := by
  refine ⟨rfl, by decide, rfl, rfl, ?_⟩
  simp [saveBatch, filterDuplicates, filterDupGo, parseToUTC, processItem,
    existsExact, existsJitter, tryCreate, mkDoc]

/-- Claim C9: on an update where the previous and new statuses are both
RUNNING, the accrued delta is max(0, floor((T - lastUpdated) / 1000))
seconds, so uptimeSeconds never decreases even when T precedes the stored
lastUpdated. -/
theorem running_streak_uptime_monotonic (ex : LiveState) (m : String)
    (mp dn : Option Bool) (sh : Option String) (T now : Int)
    (hrun : ex.status = .RUNNING) :
    (applyUpdate (some ex)
      { machine := m, status := some .RUNNING, machinePower := mp, downtime := dn,
        shift := sh, timestamp := some T } now).uptimeSeconds =
      ex.uptimeSeconds + max 0 (Int.fdiv (T - ex.lastUpdated) 1000) ∧
    ex.uptimeSeconds ≤
      (applyUpdate (some ex)
        { machine := m, status := some .RUNNING, machinePower := mp, downtime := dn,
          shift := sh, timestamp := some T } now).uptimeSeconds := by
  simp only [applyUpdate, hrun, Option.getD_some]
  norm_num

/-- A RUNNING LiveState whose lastUpdated (100000 ms) lies after the next
update instant used in the monotonicity witness. -/
def runningState : LiveState :=
  { machineName := "M1", status := .RUNNING, machinePower := true,
    downtime := false, shift := "Morning", lastUpdated := 100000,
    lastChange := 0, uptimeSeconds := 50, lastPolled := 0, isOnline := true }

/-- Witness for running_streak_uptime_monotonic: a RUNNING update whose
timestamp 40000 precedes lastUpdated 100000 leaves uptimeSeconds at 50. -/
theorem running_streak_uptime_monotonic_witness :
    runningState.status = .RUNNING ∧
    ((applyUpdate (some runningState)
      { machine := "M1", status := some .RUNNING, machinePower := none,
        downtime := none, shift := none, timestamp := some 40000 } 7).uptimeSeconds =
      runningState.uptimeSeconds +
        max 0 (Int.fdiv (40000 - runningState.lastUpdated) 1000) ∧
    runningState.uptimeSeconds ≤
      (applyUpdate (some runningState)
        { machine := "M1", status := some .RUNNING, machinePower := none,
          downtime := none, shift := none, timestamp := some 40000 } 7).uptimeSeconds) :=
  ⟨rfl, running_streak_uptime_monotonic runningState "M1" none none none 40000 7 rfl⟩

/-- Claim C10: every LiveState operation keeps the invariant that a
positive uptimeSeconds implies status RUNNING; creation (both in the
update route and in the one-time initialization route) starts at 0, any
status change resets to 0, and a repeated non-RUNNING status keeps the
value, which the invariant pins at 0. -/
theorem uptime_positive_implies_running (prev : Option LiveState)
    (u : LiveUpdate) (now : Int)
    (hprev : ∀ s, prev = some s → uptimeInv s) :
    uptimeInv (applyUpdate prev u now) ∧
    (applyUpdate none u now).uptimeSeconds = 0 ∧
    (∀ mn st pw dt shf ts n2,
      (initLiveState mn st pw dt shf ts n2).uptimeSeconds = 0) ∧
    (∀ s, prev = some s → u.status ≠ some s.status →
      (applyUpdate prev u now).uptimeSeconds = 0) ∧
    (∀ s, prev = some s → s.status ≠ .RUNNING → u.status = some s.status →
      (applyUpdate prev u now).uptimeSeconds = s.uptimeSeconds ∧
      (applyUpdate prev u now).uptimeSeconds = 0) := by
  refine ⟨?_, rfl, fun _ _ _ _ _ _ _ => rfl, ?_, ?_⟩
  · match prev with
    | none =>
        exact ⟨le_refl 0, fun h => by simp [applyUpdate] at h⟩
    | some ex =>
        have hex := hprev ex rfl
        simp only [applyUpdate, uptimeInv]
        split_ifs with h1 h2 h3
        · constructor
          · have hup := hex.1
            have := le_max_left (0 : Int)
              (Int.fdiv (u.timestamp.getD now - ex.lastUpdated) 1000)
            omega
          · intro _
            simp [h1.2, h1.1]
        · exact ⟨le_refl 0, fun h => absurd h (by omega)⟩
        · exact ⟨le_refl 0, fun h => absurd h (by omega)⟩
        · refine ⟨hex.1, fun h => ?_⟩
          push_neg at h3
          exact absurd ⟨hex.2 h, h3⟩ h1
  · rintro s rfl hne
    simp only [applyUpdate]
    split_ifs with h1 h2
    · exact absurd h1.2 hne
    · rfl
    · rfl
  · rintro s rfl hnr heq
    have hex := hprev s rfl
    simp only [applyUpdate]
    split_ifs with h1 h2 h3
    · exact absurd h1.1 hnr
    · rw [heq] at h2
      exact absurd (Option.some_injective _ h2) hnr
    · exact absurd heq h3
    · have h0 : s.uptimeSeconds = 0 := by
        rcases lt_or_le 0 s.uptimeSeconds with h | h
        · exact absurd (hex.2 h) hnr
        · exact le_antisymm h hex.1
      exact ⟨rfl, h0⟩

/-- An OFF LiveState with zero uptime, satisfying the uptime invariant,
used by the invariant-preservation witness. -/
def offState : LiveState :=
  { machineName := "M1", status := .OFF, machinePower := false,
    downtime := false, shift := "Night", lastUpdated := 1000,
    lastChange := 1000, uptimeSeconds := 0, lastPolled := 1000,
    isOnline := true }

/-- Witness for uptime_positive_implies_running: an OFF to OFF update of a
zero-uptime state preserves the invariant, and creation yields uptime 0. -/
theorem uptime_positive_implies_running_witness :
    uptimeInv (applyUpdate (some offState)
      { machine := "M1", status := some .OFF, machinePower := none,
        downtime := none, shift := none, timestamp := some 2000 } 3000) ∧
    (applyUpdate none
      { machine := "M1", status := some .OFF, machinePower := none,
        downtime := none, shift := none, timestamp := some 2000 } 3000).uptimeSeconds = 0 :=
  ⟨(uptime_positive_implies_running (some offState)
      { machine := "M1", status := some .OFF, machinePower := none,
        downtime := none, shift := none, timestamp := some 2000 } 3000
      (fun s h => by
        cases h
        exact ⟨le_refl 0, fun hpos => by simp [offState] at hpos⟩)).1,
   (uptime_positive_implies_running (some offState)
      { machine := "M1", status := some .OFF, machinePower := none,
        downtime := none, shift := none, timestamp := some 2000 } 3000
      (fun s h => by
        cases h
        exact ⟨le_refl 0, fun hpos => by simp [offState] at hpos⟩)).2.1⟩

end Stylers
